import Mathlib

/-!
# Verification of the summarization backend

This file is a shallow embedding of the backend of the Youtube video
summarizer (files `backend/summarizer_utils.py`, `backend/main.py`,
`backend/youtube_utils.py`) together with proofs of the specified
properties of the summarization core.

The summarization engines (the `transformers` pipelines `bart_summarizer`
and `t5_summarizer`, loaded once at module start) are external
collaborators: here an engine environment is an arbitrary function from an
engine call to a Python-level outcome (a returned value of any shape, or a
raised exception).  Python values are modelled by the inductive `PyVal`,
and the orchestrator additionally records, as observable traces, the exact
engine calls it performs and the console notes it prints.
-/

set_option autoImplicit false
set_option maxRecDepth 16384

/-- A Python runtime value, as far as the backend inspects values: `None`,
strings, lists, dicts with string keys, and an opaque catch-all
(`pyOther b r` is some other object with truthiness `b` and repr `r`). -/
inductive PyVal where
  | pyNone : PyVal
  | pyStr : String → PyVal
  | pyList : List PyVal → PyVal
  | pyDict : List (String × PyVal) → PyVal
  | pyOther : Bool → String → PyVal

/-- Python truthiness (`bool(v)`) for the modelled values. -/
def pyTruthy : PyVal → Bool
  | .pyNone => false
  | .pyStr s => s != ""
  | .pyList items => !items.isEmpty
  | .pyDict entries => !entries.isEmpty
  | .pyOther b _ => b

/-- `isinstance(v, list)`. -/
def isPyList : PyVal → Bool
  | .pyList _ => true
  | _ => false

/-- The items of a Python list (`[]` on non-lists; all uses are guarded by
`isPyList` checks mirroring the source's `isinstance` guards). -/
def pyListItems : PyVal → List PyVal
  | .pyList items => items
  | _ => []

/-- `isinstance(v, dict)`. -/
def isPyDict : PyVal → Bool
  | .pyDict _ => true
  | _ => false

/-- The entries of a Python dict (`[]` on non-dicts; uses are guarded by
`isPyDict` checks mirroring the source's `isinstance` guards). -/
def pyDictEntries : PyVal → List (String × PyVal)
  | .pyDict entries => entries
  | _ => []

mutual

/-- An abstraction of Python `repr`, used only to build the
"invalid result structure" diagnostic text (its exact rendering is
immaterial to every claim; it only needs to be a deterministic string). -/
def pyRepr : PyVal → String
  | .pyNone => "None"
  | .pyStr s => "\x27" ++ s ++ "\x27"
  | .pyList items => "[" ++ pyReprItems items ++ "]"
  | .pyDict entries => "\x7b" ++ pyReprEntries entries ++ "\x7d"
  | .pyOther _ r => r

/-- Comma-separated reprs of list items. -/
def pyReprItems : List PyVal → String
  | [] => ""
  | [v] => pyRepr v
  | v :: vs => pyRepr v ++ ", " ++ pyReprItems vs

/-- Comma-separated reprs of dict entries. -/
def pyReprEntries : List (String × PyVal) → String
  | [] => ""
  | [(k, v)] => "\x27" ++ k ++ "\x27: " ++ pyRepr v
  | (k, v) :: es => "\x27" ++ k ++ "\x27: " ++ pyRepr v ++ ", " ++ pyReprEntries es

end

/-- Python `str(v)`: the string itself for strings, `repr`-style text
otherwise (only ever applied to strings in the modelled code paths). -/
def pyStrOf : PyVal → String
  | .pyStr s => s
  | v => pyRepr v

/-- The outcome of one call into a summarization pipeline: a returned
value of any shape, or a raised exception.  `raisedIndexError msg` is an
`IndexError` whose `str` is `msg`; `raisedOther msg` is any other
exception whose `str` is `msg`. -/
inductive PyResult where
  | returned : PyVal → PyResult
  | raisedIndexError : String → PyResult
  | raisedOther : String → PyResult

/-- One invocation of a registry engine: which pipeline object is called
(`"bart"` or `"t5"`), the submitted input text, and the keyword arguments
`max_length`, `min_length`, `do_sample` passed by the core. -/
structure EngineCall where
  engine : String
  input_text : String
  max_length : Nat
  min_length : Nat
  do_sample : Bool
deriving DecidableEq, Repr

/-- An engine environment: the behaviour of the loaded pipelines, i.e. the
outcome each possible engine call produces. -/
def EngineEnv : Type := EngineCall → PyResult

/-! ## String helpers (Python `str` methods used by the backend)

These are written over `String.data` directly so that every theorem and
witness below evaluates by kernel reduction. -/

/-- Python `str.strip()` (Lean's `Char.isWhitespace` stands in for
Python's whitespace class; they agree on space, tab, CR and LF, which is
all the claims exercise). -/
def pyStrip (s : String) : String :=
  ⟨((s.data.dropWhile Char.isWhitespace).reverse.dropWhile Char.isWhitespace).reverse⟩

/-- Accumulator loop for `pySplit`: `acc` holds the reversed characters of
the word currently being scanned. -/
def wordsAux : List Char → List Char → List String
  | [], acc => if acc.isEmpty then [] else [⟨acc.reverse⟩]
  | c :: cs, acc =>
    if c.isWhitespace then
      if acc.isEmpty then wordsAux cs [] else ⟨acc.reverse⟩ :: wordsAux cs []
    else
      wordsAux cs (c :: acc)

/-- Python `str.split()` with no argument: split on whitespace runs,
dropping empty pieces. -/
def pySplit (s : String) : List String :=
  wordsAux s.data []

/-- Python `sep.join(ws)`. -/
def pyJoin (sep : String) : List String → String
  | [] => ""
  | [w] => w
  | w :: ws => w ++ sep ++ pyJoin sep ws

/-- Python `s.startswith(pre)`. -/
def pyStartswith (s pre : String) : Bool :=
  pre.data.isPrefixOf s.data

/-- Helper for `pyContains`: does `pat` occur as a contiguous run in the
character list? -/
def charsContain (pat : List Char) : List Char → Bool
  | [] => pat.isEmpty
  | c :: cs => pat.isPrefixOf (c :: cs) || charsContain pat cs

/-- Python `pat in s` (substring containment). -/
def pyContains (s pat : String) : Bool :=
  charsContain pat.data s.data

/-- Python `s.lower()`. -/
def pyLower (s : String) : String :=
  ⟨s.data.map Char.toLower⟩

/-! ## `safe_summarize` (summarizer_utils.py, lines 73–105) -/

/-- `safe_summarize(model_pipeline, input_text, **kwargs)`.  The pipeline
object and its arguments are packaged as `call`; `env` gives the outcome
of the call `model_pipeline(input_text, **kwargs)`.  Returns the Python
pair `(summary_or_None, error_or_None)` exactly as the source builds it:
the result-shape guards, the extraction `result[0]["summary_text"]`, and
the three `except` arms are translated clause by clause. -/
def safe_summarize (env : EngineEnv) (call : EngineCall) : PyVal × PyVal :=
  match env call with
  | .returned result =>
    if !pyTruthy result || !isPyList result || (pyListItems result).length == 0 then
      (.pyNone, .pyStr "Model returned empty result")
    else
      let first := (pyListItems result).headD .pyNone
      if !isPyDict first || ((pyDictEntries first).lookup "summary_text").isNone then
        (.pyNone, .pyStr ("Model returned invalid result structure: " ++ pyRepr result))
      else
        (((pyDictEntries first).lookup "summary_text").getD .pyNone, .pyNone)
  | .raisedIndexError msg =>
    if pyContains msg "index out of range in self" then
      (.pyNone, .pyStr "Model pipeline failed internally (index out of range)")
    else
      (.pyNone, .pyStr ("Index error: " ++ msg))
  | .raisedOther msg =>
    (.pyNone, .pyStr ("Model error: " ++ msg))

/-! ## `chunk_text` (summarizer_utils.py, lines 10–39) -/

/-- The word-accumulation loop of `chunk_text`: `current` is the list
`current_chunk` of already-accumulated words (in order).  The guard is the
source's `len(current_chunk) + len(word.split()) > max_tokens`; on
overflow the current chunk is closed and the word starts a new one, and at
the end a non-empty `current_chunk` is closed (`if current_chunk:`). -/
def chunkLoop (max_tokens : Nat) : List String → List String → List (List String)
  | [], current => if current.isEmpty then [] else [current]
  | w :: ws, current =>
    if current.length + (pySplit w).length > max_tokens then
      current :: chunkLoop max_tokens ws [w]
    else
      chunkLoop max_tokens ws (current ++ [w])

/-- `chunk_text(text, max_tokens=300)`: split `text` into word-bounded
chunks, each chunk re-joined with single spaces (`" ".join(current_chunk)`). -/
def chunk_text (text : String) (max_tokens : Nat := 300) : List String :=
  (chunkLoop max_tokens (pySplit text) []).map (pyJoin " ")

/-! ## `summarize_transcript` (summarizer_utils.py, lines 107–219) -/

/-- The observable outcome of one attempt (the primary single-pass call or
the fallback call): the control-flow outcome of the `try` body (`.ok v` =
a normal `return v`, `.error m` = a raised `ValueError` with message `m`),
the engine calls performed, and the console lines printed. -/
structure AttemptResult where
  outcome : Except String PyVal
  calls : List EngineCall
  prints : List String

/-- The primary single-pass body of `summarize_transcript` (the outer
`try` block, lines 133–178): one `safe_summarize` invocation on the full
transcript for "bart"; for "t5", the `"summarize: "` prefix and the
1500-word ceiling truncation (with its printed note) are applied first;
any other selector returns the `Unknown model` string with no engine
call. -/
def primaryAttempt (env : EngineEnv) (transcript model : String)
    (max_length min_length : Nat) : AttemptResult :=
  if model = "bart" then
    let call : EngineCall := ⟨"bart", transcript, max_length, min_length, false⟩
    let r := safe_summarize env call
    { outcome := if pyTruthy r.2 then
        .error ("BART model failed: " ++ pyStrOf r.2)
      else .ok r.1
      calls := [call]
      prints := if pyTruthy r.2 then
        ["BART safe_summarize error: " ++ pyStrOf r.2]
      else [] }
  else if model = "t5" then
    let overLong := (pySplit transcript).length > 1500
    let input_text :=
      if overLong then "summarize: " ++ pyJoin " " ((pySplit transcript).take 1500)
      else "summarize: " ++ transcript
    let truncNote :=
      if overLong then ["Note: Transcript was very long and was truncated for T5 model"]
      else []
    let call : EngineCall := ⟨"t5", input_text, max_length, min_length, false⟩
    let r := safe_summarize env call
    { outcome := if pyTruthy r.2 then
        .error ("T5 model failed: " ++ pyStrOf r.2)
      else .ok r.1
      calls := [call]
      prints := truncNote ++ (if pyTruthy r.2 then
        ["T5 safe_summarize error: " ++ pyStrOf r.2]
      else []) }
  else
    { outcome := .ok (.pyStr ("Unknown model: " ++ model))
      calls := []
      prints := [] }

/-- The fallback body of `summarize_transcript` (the inner `try` block,
lines 183–215): one retry on the first 500 words (`" ".join(
transcript.split()[:500])`) with the same bounds.  If the selector is
neither "bart" nor "t5" the inner `try` body is empty and control falls
off the end of the function, returning Python `None` (unreachable from
the top level, but part of the code). -/
def fallbackAttempt (env : EngineEnv) (transcript model : String)
    (max_length min_length : Nat) : AttemptResult :=
  let truncated := pyJoin " " ((pySplit transcript).take 500)
  if model = "bart" then
    let call : EngineCall := ⟨"bart", truncated, max_length, min_length, false⟩
    let r := safe_summarize env call
    { outcome := if pyTruthy r.2 then
        .error ("BART final fallback failed: " ++ pyStrOf r.2)
      else .ok r.1
      calls := [call]
      prints := [] }
  else if model = "t5" then
    let call : EngineCall := ⟨"t5", "summarize: " ++ truncated, max_length, min_length, false⟩
    let r := safe_summarize env call
    { outcome := if pyTruthy r.2 then
        .error ("T5 final fallback failed: " ++ pyStrOf r.2)
      else .ok r.1
      calls := [call]
      prints := [] }
  else
    { outcome := .ok .pyNone
      calls := []
      prints := [] }

/-- The full observable behaviour of one `summarize_transcript` call: the
returned Python value, the engine calls performed (in order), and the
console lines printed (in order). -/
structure SummarizeOutcome where
  retval : PyVal
  calls : List EngineCall
  prints : List String

/-- `summarize_transcript(transcript, model="bart", max_length=300,
min_length=100)`: the blank-transcript early return, the primary
single-pass attempt, and — when the primary attempt raises — the printed
diagnostics followed by the single fallback attempt, whose own failure
yields the `Failed to generate summary after all attempts` message built
from the *primary* exception `e`. -/
def summarize_transcript (env : EngineEnv) (transcript : String)
    (model : String := "bart") (max_length : Nat := 300) (min_length : Nat := 100) :
    SummarizeOutcome :=
  if pyStrip transcript = "" then
    { retval := .pyStr "No transcript available to summarize."
      calls := []
      prints := [] }
  else
    let p := primaryAttempt env transcript model max_length min_length
    match p.outcome with
    | .ok v => { retval := v, calls := p.calls, prints := p.prints }
    | .error e =>
      let pre := p.prints ++
        ["Error in single-pass summarization: " ++ e,
         "Final fallback: trying with much shorter input..."]
      let f := fallbackAttempt env transcript model max_length min_length
      match f.outcome with
      | .ok v => { retval := v, calls := p.calls ++ f.calls, prints := pre ++ f.prints }
      | .error fe =>
        { retval := .pyStr ("Failed to generate summary after all attempts: " ++ e)
          calls := p.calls ++ f.calls
          prints := pre ++ f.prints ++ ["All fallbacks failed: " ++ fe] }

/-! ## `get_transcript` (youtube_utils.py, lines 43–119) and the
`/summarize` endpoint (main.py, lines 29–105) -/

/-- The outcome of the YouTube transcript fetch (`api.fetch(video_id)`):
either the fetched entries (their raw `text` fields, in order) or one of
the exceptions `get_transcript` handles; `otherFetchError msg` is any
other exception with `str` equal to `msg`. -/
inductive FetchOutcome where
  | fetched : List String → FetchOutcome
  | transcriptsDisabled : FetchOutcome
  | noTranscriptFound : FetchOutcome
  | videoUnavailable : FetchOutcome
  | otherFetchError : String → FetchOutcome

/-- `get_transcript(video_id)` as a function of the fetch outcome: on
success, each entry with non-blank text is whitespace-normalized
(`' '.join(cleaned_text.split())`), non-empty cleaned pieces are kept and
joined with single spaces; each handled exception produces its fixed
message.  In the catch-all arm the initial `Transcript error: {e}` string
is always overwritten by one of the three specific messages (the
`if`/`elif`/`else` each reassign `error_msg`), which the translation
reflects. -/
def get_transcript (outcome : FetchOutcome) : String :=
  match outcome with
  | .fetched entries =>
    pyJoin " "
      (((entries.filter (fun t => t != "" && pyStrip t != "")).map
          (fun t => pyJoin " " (pySplit (pyStrip t)))).filter (fun s => s != ""))
  | .transcriptsDisabled => "Transcripts are disabled for this video."
  | .noTranscriptFound => "No transcript available for this video."
  | .videoUnavailable => "This video is unavailable or has been removed."
  | .otherFetchError msg =>
    if pyContains (pyLower msg) "index out of range" then
      "Transcript processing error: Index out of range. This may be a temporary issue."
    else if pyContains (pyLower msg) "network" || pyContains (pyLower msg) "timeout" then
      "Network error while retrieving transcript. Please check your internet connection."
    else
      "Unexpected error: " ++ msg

/-- The fetch-failure guard of `summarize_video` (main.py, line 60):
`not transcript or transcript.startswith("No transcript") or
transcript.startswith("Transcript error")`. -/
def transcriptRejected (transcript : String) : Bool :=
  transcript == "" || pyStartswith transcript "No transcript" ||
    pyStartswith transcript "Transcript error"

/-- The JSON envelope the `/summarize` endpoint produces: an `error`
response or a `summary`/`model_used` response (the performance-metrics
fields carry no information about the verified behaviour and are
omitted). -/
inductive EndpointResponse where
  | errorResp : String → EndpointResponse
  | summaryResp : PyVal → String → EndpointResponse

/-- The `/summarize` endpoint body after a successful URL parse, as a
function of the fetch outcome and requested model (main.py, lines 56–94):
the fetch-failure guard, the call to `summarize_transcript` with the
default bounds, and the `not summary or summary.startswith("Failed to
generate")` check.  A truthy non-string summary would make `startswith`
raise an `AttributeError` swallowed by the endpoint's catch-all
`except`; that arm is modelled as the generic unexpected-error
response. -/
def summarize_video (env : EngineEnv) (fetch : FetchOutcome) (model : String) :
    EndpointResponse :=
  let transcript := get_transcript fetch
  if transcriptRejected transcript then
    .errorResp ("Could not retrieve transcript: " ++ transcript)
  else
    let s := summarize_transcript env transcript model 300 100
    if !pyTruthy s.retval then
      .errorResp ("Summary generation failed: " ++ pyStrOf s.retval)
    else
      match s.retval with
      | .pyStr str =>
        if pyStartswith str "Failed to generate" then
          .errorResp ("Summary generation failed: " ++ str)
        else
          .summaryResp (.pyStr str) model
      | v => .errorResp ("An unexpected error occurred: " ++ pyRepr v)

/-! ## Outcome classification (spec §4.3 / §7)

Decidable predicates on a raw engine outcome, one per class of the spec's
taxonomy, read off from the successive guards of `safe_summarize`:
success, `EngineEmptyResultError`, `EngineMalformedResultError`,
`EngineInternalIndexError`, and the catch-all engine fault (which absorbs
the source's non-internal `IndexError` arm, reported as `Index error:`). -/

/-- Success: the first guard passes (truthy list of positive length) and
the second passes (`result[0]` is a dict containing `"summary_text"`). -/
def isSuccessOutcome : PyResult → Bool
  | .returned (.pyList (first :: _)) =>
    isPyDict first && ((pyDictEntries first).lookup "summary_text").isSome
  | _ => false

/-- Empty-result failure: the first guard of `safe_summarize` fires
(`not result or not isinstance(result, list) or len(result) == 0`). -/
def isEmptyResultOutcome : PyResult → Bool
  | .returned v => !pyTruthy v || !isPyList v || (pyListItems v).length == 0
  | _ => false

/-- Malformed-shape failure: a non-empty list whose first element is not a
dict or lacks the `"summary_text"` key. -/
def isMalformedOutcome : PyResult → Bool
  | .returned (.pyList (first :: _)) =>
    !isPyDict first || ((pyDictEntries first).lookup "summary_text").isNone
  | _ => false

/-- Index-range internal failure: an `IndexError` whose text contains
`"index out of range in self"`. -/
def isInternalIndexOutcome : PyResult → Bool
  | .raisedIndexError msg => pyContains msg "index out of range in self"
  | _ => false

/-- Other engine failure: any other raised fault (any non-`IndexError`
exception, or an `IndexError` without the internal marker text). -/
def isOtherFaultOutcome : PyResult → Bool
  | .raisedIndexError msg => !pyContains msg "index out of range in self"
  | .raisedOther _ => true
  | .returned _ => false

/-- How many of the five outcome classes an engine outcome belongs to. -/
def outcomeClassCount (o : PyResult) : Nat :=
  (if isSuccessOutcome o then 1 else 0) +
  (if isEmptyResultOutcome o then 1 else 0) +
  (if isMalformedOutcome o then 1 else 0) +
  (if isInternalIndexOutcome o then 1 else 0) +
  (if isOtherFaultOutcome o then 1 else 0)

/-- A benign-engine condition: whenever the outcome has the successful
shape, the value stored under `"summary_text"` is a Python string
(possibly empty).  Real `transformers` summarization pipelines satisfy
this; the core itself never checks it. -/
def extractedSummaryIsStr : PyResult → Bool
  | .returned (.pyList (.pyDict entries :: _)) =>
    match entries.lookup "summary_text" with
    | some (.pyStr _) => true
    | some _ => false
    | none => true
  | _ => true

/-- A word in the sense of `str.split()`: non-empty and containing no
whitespace character. -/
def IsWord (w : String) : Prop :=
  w.data ≠ [] ∧ ∀ c ∈ w.data, ¬c.isWhitespace

/-! ## Theorems

### String plumbing -/

theorem strData_append (s t : String) : (s ++ t).data = s.data ++ t.data := rfl

theorem strMk_data (s : String) : String.mk s.data = s := rfl

theorem strAppend_ne_empty (s t : String) (h : s.data ≠ []) : s ++ t ≠ "" := by
  intro he
  have hd := congrArg String.data he
  rw [strData_append] at hd
  exact h (List.append_eq_nil.mp hd).1

theorem eq_empty_of_pyStr_truthy_false {m : String}
    (h : pyTruthy (.pyStr m) = false) : m = "" := by
  simpa [pyTruthy] using h

/-! ### Words and joins -/

theorem wordsAux_append_nonwhite (cs : List Char) (h : ∀ c ∈ cs, ¬c.isWhitespace) :
    ∀ (rest acc : List Char),
    wordsAux (cs ++ rest) acc = wordsAux rest (cs.reverse ++ acc) := by
  induction cs with
  | nil => intro rest acc; simp
  | cons c cs ih =>
    intro rest acc
    have hc : ¬c.isWhitespace := h c (by simp)
    have hcs : ∀ x ∈ cs, ¬x.isWhitespace := fun x hx => h x (by simp [hx])
    simp only [List.cons_append]
    rw [wordsAux, if_neg hc, ih hcs]
    simp [List.append_assoc]

theorem pySplit_eq_single {w : String} (hw : IsWord w) : pySplit w = [w] := by
  obtain ⟨hne, hnw⟩ := hw
  have h := wordsAux_append_nonwhite w.data hnw [] []
  rw [List.append_nil] at h
  rw [pySplit, h, wordsAux]
  have hbe : (w.data.reverse ++ []).isEmpty = false := by
    simp [List.isEmpty_iff, hne]
  rw [hbe]
  simp [strMk_data]

theorem wordsAux_words :
    ∀ (cs acc : List Char), (∀ c ∈ acc, ¬c.isWhitespace) →
    ∀ w ∈ wordsAux cs acc, IsWord w := by
  intro cs
  induction cs with
  | nil =>
    intro acc hacc w hw
    rw [wordsAux] at hw
    by_cases hA : acc.isEmpty
    · simp [hA] at hw
    · rw [if_neg hA] at hw
      simp only [List.mem_singleton] at hw
      subst hw
      refine ⟨?_, ?_⟩
      · simpa [List.isEmpty_iff] using hA
      · intro c hc
        exact hacc c (by simpa using hc)
  | cons c cs ih =>
    intro acc hacc w hw
    rw [wordsAux] at hw
    by_cases hc : c.isWhitespace
    · rw [if_pos hc] at hw
      by_cases hA : acc.isEmpty
      · rw [if_pos hA] at hw
        exact ih [] (by simp) w hw
      · rw [if_neg hA] at hw
        rcases List.mem_cons.mp hw with hw | hw
        · subst hw
          refine ⟨?_, ?_⟩
          · simpa [List.isEmpty_iff] using hA
          · intro x hx
            exact hacc x (by simpa using hx)
        · exact ih [] (by simp) w hw
    · rw [if_neg hc] at hw
      refine ih (c :: acc) ?_ w hw
      intro x hx
      rcases List.mem_cons.mp hx with hx | hx
      · subst hx; exact hc
      · exact hacc x hx

theorem pySplit_words (s : String) : ∀ w ∈ pySplit s, IsWord w :=
  wordsAux_words s.data [] (by simp)

theorem pySplit_pyJoin :
    ∀ (ws : List String), (∀ w ∈ ws, IsWord w) → pySplit (pyJoin " " ws) = ws := by
  intro ws
  induction ws with
  | nil => intro _; rfl
  | cons w ws ih =>
    intro h
    cases ws with
    | nil => exact pySplit_eq_single (h w (by simp))
    | cons w2 ws2 =>
      obtain ⟨hne, hnw⟩ := h w (by simp)
      have hdata : (pyJoin " " (w :: w2 :: ws2)).data =
          w.data ++ (' ' :: (pyJoin " " (w2 :: ws2)).data) := by
        show ((w ++ " ") ++ pyJoin " " (w2 :: ws2)).data = _
        rw [strData_append, strData_append]
        simp
      rw [pySplit, hdata, wordsAux_append_nonwhite w.data hnw, wordsAux]
      have hsp : (' ' : Char).isWhitespace = true := by decide
      rw [if_pos hsp]
      rw [if_neg (by simp [List.isEmpty_iff, hne])]
      have htail : wordsAux (pyJoin " " (w2 :: ws2)).data [] = w2 :: ws2 :=
        ih (fun x hx => h x (by simp [List.mem_cons] at hx ⊢; tauto))
      rw [htail]
      simp [strMk_data]

/-! ### Chunking invariants -/

theorem chunkLoop_join (B : Nat) :
    ∀ (ws current : List String), (chunkLoop B ws current).flatten = current ++ ws := by
  intro ws
  induction ws with
  | nil =>
    intro current
    by_cases h : current.isEmpty = true
    · simp [chunkLoop, h, List.isEmpty_iff.mp h]
    · simp [chunkLoop, h]
  | cons w ws ih =>
    intro current
    by_cases h : current.length + (pySplit w).length > B
    · simp [chunkLoop, h, ih]
    · simp [chunkLoop, h, ih]

theorem chunkLoop_size (B : Nat) (hB : 1 ≤ B) :
    ∀ (ws current : List String), (∀ w ∈ ws, (pySplit w).length = 1) →
    current.length ≤ B → ∀ c ∈ chunkLoop B ws current, c.length ≤ B := by
  intro ws
  induction ws with
  | nil =>
    intro current _ hcur c hc
    by_cases h : current.isEmpty = true
    · simp [chunkLoop, h] at hc
    · simp [chunkLoop, h] at hc
      subst hc
      exact hcur
  | cons w ws ih =>
    intro current hws hcur c hc
    have hw1 : (pySplit w).length = 1 := hws w (by simp)
    have hws2 : ∀ x ∈ ws, (pySplit x).length = 1 := fun x hx => hws x (by simp [hx])
    by_cases h : current.length + (pySplit w).length > B
    · simp only [chunkLoop, if_pos h, List.mem_cons] at hc
      rcases hc with hc | hc
      · subst hc; exact hcur
      · exact ih [w] hws2 (by simpa using hB) c hc
    · simp only [chunkLoop, if_neg h] at hc
      refine ih (current ++ [w]) hws2 ?_ c hc
      simp only [List.length_append, List.length_singleton]
      omega

theorem chunkLoop_count (B : Nat) (hB : 1 ≤ B) :
    ∀ (ws current : List String), (∀ w ∈ ws, (pySplit w).length = 1) →
    current.length ≤ B →
    (chunkLoop B ws current).length = (current.length + ws.length + B - 1) / B := by
  intro ws
  induction ws with
  | nil =>
    intro current _ hcur
    by_cases h : current.isEmpty = true
    · have hc0 : current = [] := List.isEmpty_iff.mp h
      subst hc0
      have h0 : (B - 1) / B = 0 := Nat.div_eq_of_lt (by omega)
      simp [chunkLoop, h0]
    · have hcne : current ≠ [] := by simpa [List.isEmpty_iff] using h
      have hc1 : 1 ≤ current.length := List.length_pos.mpr hcne
      have e1 : current.length + B - 1 = (current.length - 1) + B := by omega
      have e2 : ((current.length - 1) + B) / B = (current.length - 1) / B + 1 :=
        Nat.add_div_right _ (by omega)
      have e3 : (current.length - 1) / B = 0 := Nat.div_eq_of_lt (by omega)
      simp [chunkLoop, h, e1, e2, e3]
  | cons w ws ih =>
    intro current hws hcur
    have hw1 : (pySplit w).length = 1 := hws w (by simp)
    have hws2 : ∀ x ∈ ws, (pySplit x).length = 1 := fun x hx => hws x (by simp [hx])
    by_cases h : current.length + (pySplit w).length > B
    · have hfull : current.length = B := by omega
      have ihw := ih [w] hws2 (by simpa using hB)
      simp only [chunkLoop, if_pos h, List.length_cons]
      rw [ihw]
      have e1 : ([w] : List String).length + ws.length + B - 1 = ws.length + B := by
        simp only [List.length_singleton]
        omega
      have e2 : current.length + (ws.length + 1) + B - 1 = (ws.length + B) + B := by
        omega
      rw [e1, e2, Nat.add_div_right _ (by omega), Nat.add_div_right _ (by omega),
        Nat.add_div_right _ (by omega)]
    · have hle : (current ++ [w]).length ≤ B := by
        simp only [List.length_append, List.length_singleton]
        omega
      simp only [chunkLoop, if_neg h, List.length_cons]
      rw [ih (current ++ [w]) hws2 hle]
      congr 1
      simp only [List.length_append, List.length_singleton]
      omega

/-- **C5**: for every text, with word count `W = (pySplit text).length` and
budget `B ≥ 1`, `chunk_text` produces exactly `⌈W/B⌉ = (W + B - 1) / B`
chunks (in particular zero chunks when the word list is empty), each
chunk's word count is at most `B` (the single-oversized-word exception the
spec allows never fires: under `str.split()` every word weighs exactly
one), and concatenating the words of all chunks in order reproduces the
original word sequence exactly, so no word is split across a chunk
boundary. -/
theorem C5_chunk_text_invariants (text : String) (B : Nat) (hB : 1 ≤ B) :
    (chunk_text text B).length = ((pySplit text).length + B - 1) / B ∧
    (∀ ch ∈ chunk_text text B, (pySplit ch).length ≤ B) ∧
    ((chunk_text text B).map pySplit).flatten = pySplit text ∧
    (pySplit text = [] → chunk_text text B = []) := by
  have hwords : ∀ w ∈ pySplit text, IsWord w := pySplit_words text
  have hones : ∀ w ∈ pySplit text, (pySplit w).length = 1 := by
    intro w hw
    rw [pySplit_eq_single (hwords w hw)]
    rfl
  have hmem : ∀ c ∈ chunkLoop B (pySplit text) [], ∀ w ∈ c, IsWord w := by
    intro c hc w hw
    have hj : w ∈ (chunkLoop B (pySplit text) []).flatten :=
      List.mem_flatten.mpr ⟨c, hc, hw⟩
    rw [chunkLoop_join] at hj
    exact hwords w (by simpa using hj)
  have hround : ∀ c ∈ chunkLoop B (pySplit text) [], pySplit (pyJoin " " c) = c :=
    fun c hc => pySplit_pyJoin c (hmem c hc)
  refine ⟨?_, ?_, ?_, ?_⟩
  · rw [chunk_text, List.length_map,
      chunkLoop_count B hB (pySplit text) [] hones (by simp)]
    simp
  · intro ch hch
    rw [chunk_text] at hch
    obtain ⟨c, hc, rfl⟩ := List.mem_map.mp hch
    rw [hround c hc]
    exact chunkLoop_size B hB (pySplit text) [] hones (by simp) c hc
  · rw [chunk_text, List.map_map]
    have h1 : (chunkLoop B (pySplit text) []).map (pySplit ∘ pyJoin " ") =
        (chunkLoop B (pySplit text) []).map id :=
      List.map_congr_left (fun c hc => by simp [Function.comp, hround c hc])
    rw [h1, List.map_id, chunkLoop_join]
    simp
  · intro h
    rw [chunk_text, h]
    rfl

/-- **C5 witness**: the chunking invariants instantiated at the concrete
text `"a b c d e"` (five words) and budget `2`. -/
theorem C5_chunk_text_invariants_witness :
    (chunk_text "a b c d e" 2).length = ((pySplit "a b c d e").length + 2 - 1) / 2 ∧
    (∀ ch ∈ chunk_text "a b c d e" 2, (pySplit ch).length ≤ 2) ∧
    ((chunk_text "a b c d e" 2).map pySplit).flatten = pySplit "a b c d e" ∧
    (pySplit "a b c d e" = [] → chunk_text "a b c d e" 2 = []) :=
  C5_chunk_text_invariants "a b c d e" 2 (by decide)

/-! ### Reduction lemmas for `safe_summarize` -/

theorem safe_summarize_returned (env : EngineEnv) (call : EngineCall) (v : PyVal)
    (ho : env call = .returned v) :
    safe_summarize env call =
      if !pyTruthy v || !isPyList v || (pyListItems v).length == 0 then
        (.pyNone, .pyStr "Model returned empty result")
      else if !isPyDict ((pyListItems v).headD .pyNone) ||
          ((pyDictEntries ((pyListItems v).headD .pyNone)).lookup "summary_text").isNone then
        (.pyNone, .pyStr ("Model returned invalid result structure: " ++ pyRepr v))
      else
        (((pyDictEntries ((pyListItems v).headD .pyNone)).lookup "summary_text").getD .pyNone,
          .pyNone) := by
  unfold safe_summarize
  rw [ho]

theorem safe_summarize_raisedIndex (env : EngineEnv) (call : EngineCall) (msg : String)
    (ho : env call = .raisedIndexError msg) :
    safe_summarize env call =
      if pyContains msg "index out of range in self" then
        (.pyNone, .pyStr "Model pipeline failed internally (index out of range)")
      else
        (.pyNone, .pyStr ("Index error: " ++ msg)) := by
  unfold safe_summarize
  rw [ho]

theorem safe_summarize_raisedOther (env : EngineEnv) (call : EngineCall) (msg : String)
    (ho : env call = .raisedOther msg) :
    safe_summarize env call = (.pyNone, .pyStr ("Model error: " ++ msg)) := by
  unfold safe_summarize
  rw [ho]

theorem model_error_msg_ne_empty (msg : String) : "Model error: " ++ msg ≠ "" :=
  strAppend_ne_empty _ _ (by decide)

theorem index_error_msg_ne_empty (msg : String) : "Index error: " ++ msg ≠ "" :=
  strAppend_ne_empty _ _ (by decide)

theorem malformed_msg_ne_empty (v : PyVal) :
    "Model returned invalid result structure: " ++ pyRepr v ≠ "" :=
  strAppend_ne_empty _ _ (by decide)

/-- Every engine outcome belongs to exactly one of the five outcome
classes. -/
theorem outcomeClass_unique (o : PyResult) : outcomeClassCount o = 1 := by
  cases o with
  | returned v =>
    cases v with
    | pyNone => rfl
    | pyStr s =>
      simp [outcomeClassCount, isSuccessOutcome, isEmptyResultOutcome, isMalformedOutcome,
        isInternalIndexOutcome, isOtherFaultOutcome, isPyList]
    | pyDict d =>
      simp [outcomeClassCount, isSuccessOutcome, isEmptyResultOutcome, isMalformedOutcome,
        isInternalIndexOutcome, isOtherFaultOutcome, isPyList]
    | pyOther b r =>
      simp [outcomeClassCount, isSuccessOutcome, isEmptyResultOutcome, isMalformedOutcome,
        isInternalIndexOutcome, isOtherFaultOutcome, isPyList, pyTruthy]
    | pyList items =>
      cases items with
      | nil => rfl
      | cons first rest =>
        cases first with
        | pyDict entries =>
          cases hlk : entries.lookup "summary_text" with
          | none =>
            simp [outcomeClassCount, isSuccessOutcome, isEmptyResultOutcome,
              isMalformedOutcome, isInternalIndexOutcome, isOtherFaultOutcome,
              isPyList, isPyDict, pyTruthy, pyListItems, pyDictEntries, hlk]
          | some v =>
            simp [outcomeClassCount, isSuccessOutcome, isEmptyResultOutcome,
              isMalformedOutcome, isInternalIndexOutcome, isOtherFaultOutcome,
              isPyList, isPyDict, pyTruthy, pyListItems, pyDictEntries, hlk]
        | pyNone =>
          simp [outcomeClassCount, isSuccessOutcome, isEmptyResultOutcome,
            isMalformedOutcome, isInternalIndexOutcome, isOtherFaultOutcome,
            isPyList, isPyDict, pyTruthy, pyListItems]
        | pyStr s =>
          simp [outcomeClassCount, isSuccessOutcome, isEmptyResultOutcome,
            isMalformedOutcome, isInternalIndexOutcome, isOtherFaultOutcome,
            isPyList, isPyDict, pyTruthy, pyListItems]
        | pyList l2 =>
          simp [outcomeClassCount, isSuccessOutcome, isEmptyResultOutcome,
            isMalformedOutcome, isInternalIndexOutcome, isOtherFaultOutcome,
            isPyList, isPyDict, pyTruthy, pyListItems]
        | pyOther b r =>
          simp [outcomeClassCount, isSuccessOutcome, isEmptyResultOutcome,
            isMalformedOutcome, isInternalIndexOutcome, isOtherFaultOutcome,
            isPyList, isPyDict, pyTruthy, pyListItems]
  | raisedIndexError msg =>
    by_cases hm : pyContains msg "index out of range in self" <;>
      simp [outcomeClassCount, isSuccessOutcome, isEmptyResultOutcome, isMalformedOutcome,
        isInternalIndexOutcome, isOtherFaultOutcome, hm]
  | raisedOther msg => rfl

/-- Structure of a `safe_summarize` result: either the engine outcome had
the successful shape and the pair is `(extracted value, None)`, or the
pair is `(None, reason)` with a non-empty reason string. -/
theorem ss_master (env : EngineEnv) (call : EngineCall) :
    ((safe_summarize env call).2 = .pyNone ∧ isSuccessOutcome (env call) = true ∧
      ∃ entries rest v, env call = .returned (.pyList (.pyDict entries :: rest)) ∧
        entries.lookup "summary_text" = some v ∧ (safe_summarize env call).1 = v) ∨
    ((safe_summarize env call).1 = .pyNone ∧
      ∃ m, (safe_summarize env call).2 = .pyStr m ∧ m ≠ "") := by
  cases ho : env call with
  | returned v =>
    rw [safe_summarize_returned env call v ho]
    cases v with
    | pyNone => right; exact ⟨rfl, "Model returned empty result", rfl, by decide⟩
    | pyStr s =>
      right
      refine ⟨?_, "Model returned empty result", ?_, by decide⟩ <;>
        simp [isPyList]
    | pyDict d =>
      right
      refine ⟨?_, "Model returned empty result", ?_, by decide⟩ <;>
        simp [isPyList]
    | pyOther b r =>
      right
      refine ⟨?_, "Model returned empty result", ?_, by decide⟩ <;>
        simp [isPyList]
    | pyList items =>
      cases items with
      | nil => right; exact ⟨rfl, "Model returned empty result", rfl, by decide⟩
      | cons first rest =>
        have hguard : (!pyTruthy (PyVal.pyList (first :: rest)) ||
            !isPyList (PyVal.pyList (first :: rest)) ||
            (pyListItems (PyVal.pyList (first :: rest))).length == 0) = false := by
          simp [pyTruthy, isPyList, pyListItems]
        rw [hguard]
        simp only [Bool.false_eq_true, if_false]
        cases first with
        | pyDict entries =>
          cases hlk : entries.lookup "summary_text" with
          | none =>
            rw [if_pos (by simp [isPyDict, pyListItems, pyDictEntries, hlk])]
            exact Or.inr ⟨rfl, _, rfl, malformed_msg_ne_empty _⟩
          | some v =>
            rw [if_neg (by simp [isPyDict, pyListItems, pyDictEntries, hlk])]
            left
            refine ⟨rfl, ?_, entries, rest, v, rfl, hlk, ?_⟩
            · simp [isSuccessOutcome, isPyDict, pyDictEntries, hlk]
            · simp [pyListItems, pyDictEntries, hlk]
        | pyNone =>
          rw [if_pos (by simp [isPyDict, pyListItems])]
          exact Or.inr ⟨rfl, _, rfl, malformed_msg_ne_empty _⟩
        | pyStr s =>
          rw [if_pos (by simp [isPyDict, pyListItems])]
          exact Or.inr ⟨rfl, _, rfl, malformed_msg_ne_empty _⟩
        | pyList l2 =>
          rw [if_pos (by simp [isPyDict, pyListItems])]
          exact Or.inr ⟨rfl, _, rfl, malformed_msg_ne_empty _⟩
        | pyOther b r =>
          rw [if_pos (by simp [isPyDict, pyListItems])]
          exact Or.inr ⟨rfl, _, rfl, malformed_msg_ne_empty _⟩
  | raisedIndexError msg =>
    rw [safe_summarize_raisedIndex env call msg ho]
    by_cases hm : pyContains msg "index out of range in self"
    · rw [if_pos hm]
      exact Or.inr ⟨rfl, _, rfl, by decide⟩
    · rw [if_neg hm]
      exact Or.inr ⟨rfl, _, rfl, index_error_msg_ne_empty msg⟩
  | raisedOther msg =>
    rw [safe_summarize_raisedOther env call msg ho]
    exact Or.inr ⟨rfl, _, rfl, model_error_msg_ne_empty msg⟩

/-- If the error component is not truthy (`if error:` fails), the call
succeeded: the error component is `None` and the summary component is the
value the engine stored under `"summary_text"`. -/
theorem ss_not_truthy (env : EngineEnv) (call : EngineCall)
    (h : pyTruthy (safe_summarize env call).2 = false) :
    (safe_summarize env call).2 = .pyNone ∧ isSuccessOutcome (env call) = true ∧
      ∃ entries rest v, env call = .returned (.pyList (.pyDict entries :: rest)) ∧
        entries.lookup "summary_text" = some v ∧ (safe_summarize env call).1 = v := by
  rcases ss_master env call with hs | ⟨_, m, hm, hne⟩
  · exact hs
  · rw [hm] at h
    exact absurd (eq_empty_of_pyStr_truthy_false h) hne

/-- If the error component is truthy (`if error:` holds), the summary
component is `None` and the error component is a non-empty string. -/
theorem ss_truthy (env : EngineEnv) (call : EngineCall)
    (h : pyTruthy (safe_summarize env call).2 = true) :
    (safe_summarize env call).1 = .pyNone ∧
      ∃ m, (safe_summarize env call).2 = .pyStr m ∧ m ≠ "" := by
  rcases ss_master env call with ⟨hn, _⟩ | hs
  · rw [hn] at h
    simp [pyTruthy] at h
  · exact hs

/-! ### Per-class result equations for `safe_summarize` -/

theorem ss_empty_eq (env : EngineEnv) (call : EngineCall)
    (h : isEmptyResultOutcome (env call) = true) :
    safe_summarize env call = (.pyNone, .pyStr "Model returned empty result") := by
  cases ho : env call with
  | returned v =>
    rw [safe_summarize_returned env call v ho]
    rw [ho] at h
    exact if_pos h
  | raisedIndexError msg =>
    rw [ho] at h
    simp [isEmptyResultOutcome] at h
  | raisedOther msg =>
    rw [ho] at h
    simp [isEmptyResultOutcome] at h

theorem ss_malformed_eq (env : EngineEnv) (call : EngineCall)
    (h : isMalformedOutcome (env call) = true) :
    ∃ v, env call = .returned v ∧ safe_summarize env call =
      (.pyNone, .pyStr ("Model returned invalid result structure: " ++ pyRepr v)) := by
  cases ho : env call with
  | returned v =>
    rw [ho] at h
    refine ⟨v, rfl, ?_⟩
    rw [safe_summarize_returned env call v ho]
    cases v with
    | pyList items =>
      cases items with
      | nil => simp [isMalformedOutcome] at h
      | cons first rest =>
        have hguard : (!pyTruthy (PyVal.pyList (first :: rest)) ||
            !isPyList (PyVal.pyList (first :: rest)) ||
            (pyListItems (PyVal.pyList (first :: rest))).length == 0) = false := by
          simp [pyTruthy, isPyList, pyListItems]
        rw [hguard]
        simp only [Bool.false_eq_true, if_false]
        exact if_pos h
    | pyNone => simp [isMalformedOutcome] at h
    | pyStr s => simp [isMalformedOutcome] at h
    | pyDict d => simp [isMalformedOutcome] at h
    | pyOther b r => simp [isMalformedOutcome] at h
  | raisedIndexError msg =>
    rw [ho] at h
    simp [isMalformedOutcome] at h
  | raisedOther msg =>
    rw [ho] at h
    simp [isMalformedOutcome] at h

theorem ss_internal_eq (env : EngineEnv) (call : EngineCall)
    (h : isInternalIndexOutcome (env call) = true) :
    safe_summarize env call =
      (.pyNone, .pyStr "Model pipeline failed internally (index out of range)") := by
  cases ho : env call with
  | returned v =>
    rw [ho] at h
    simp [isInternalIndexOutcome] at h
  | raisedIndexError msg =>
    rw [ho] at h
    rw [safe_summarize_raisedIndex env call msg ho]
    exact if_pos h
  | raisedOther msg =>
    rw [ho] at h
    simp [isInternalIndexOutcome] at h

theorem ss_other_eq (env : EngineEnv) (call : EngineCall)
    (h : isOtherFaultOutcome (env call) = true) :
    ∃ m, safe_summarize env call = (.pyNone, .pyStr m) ∧ m ≠ "" := by
  cases ho : env call with
  | returned v =>
    rw [ho] at h
    simp [isOtherFaultOutcome] at h
  | raisedIndexError msg =>
    rw [ho] at h
    have hp : pyContains msg "index out of range in self" = false := by
      simpa [isOtherFaultOutcome] using h
    rw [safe_summarize_raisedIndex env call msg ho, if_neg (by simp [hp])]
    exact ⟨_, rfl, index_error_msg_ne_empty msg⟩
  | raisedOther msg =>
    rw [safe_summarize_raisedOther env call msg ho]
    exact ⟨_, rfl, model_error_msg_ne_empty msg⟩

theorem ss_success_eq (env : EngineEnv) (call : EngineCall)
    (h : isSuccessOutcome (env call) = true) :
    ∃ entries rest v, env call = .returned (.pyList (.pyDict entries :: rest)) ∧
      entries.lookup "summary_text" = some v ∧
      safe_summarize env call = (v, .pyNone) := by
  cases ho : env call with
  | returned v =>
    rw [ho] at h
    cases v with
    | pyList items =>
      cases items with
      | nil => simp [isSuccessOutcome] at h
      | cons first rest =>
        cases first with
        | pyDict entries =>
          cases hlk : entries.lookup "summary_text" with
          | none => simp [isSuccessOutcome, isPyDict, pyDictEntries, hlk] at h
          | some v =>
            refine ⟨entries, rest, v, rfl, hlk, ?_⟩
            rw [safe_summarize_returned env call _ ho]
            have hguard : (!pyTruthy (PyVal.pyList (PyVal.pyDict entries :: rest)) ||
                !isPyList (PyVal.pyList (PyVal.pyDict entries :: rest)) ||
                (pyListItems (PyVal.pyList (PyVal.pyDict entries :: rest))).length == 0) =
                false := by
              simp [pyTruthy, isPyList, pyListItems]
            rw [hguard]
            simp only [Bool.false_eq_true, if_false]
            rw [if_neg (by simp [isPyDict, pyListItems, pyDictEntries, hlk])]
            simp [pyListItems, pyDictEntries, hlk]
        | pyNone => simp [isSuccessOutcome, isPyDict] at h
        | pyStr s => simp [isSuccessOutcome, isPyDict] at h
        | pyList l2 => simp [isSuccessOutcome, isPyDict] at h
        | pyOther b r => simp [isSuccessOutcome, isPyDict] at h
    | pyNone => simp [isSuccessOutcome] at h
    | pyStr s => simp [isSuccessOutcome] at h
    | pyDict d => simp [isSuccessOutcome] at h
    | pyOther b r => simp [isSuccessOutcome] at h
  | raisedIndexError msg =>
    rw [ho] at h
    simp [isSuccessOutcome] at h
  | raisedOther msg =>
    rw [ho] at h
    simp [isSuccessOutcome] at h

/-- **C3 (amended)**: `safe_summarize` classifies every possible engine
outcome — a returned value of any shape or a raised fault — into exactly
one of the five classes (success, empty result, malformed shape, internal
index fault, other fault), never lets the fault escape, and never
populates both components of the returned pair; each failure class yields
`(None, reason)` with the class's message, and success yields
`(extracted value, None)` where the extracted value is whatever the
engine stored under `"summary_text"` — possibly `None` itself, in which
case both components are `None` (the deviation the counterexample
exhibits). -/
theorem C3_safe_summarize_classification (env : EngineEnv) (call : EngineCall) :
    outcomeClassCount (env call) = 1 ∧
    ((safe_summarize env call).1 = .pyNone ∨ (safe_summarize env call).2 = .pyNone) ∧
    (isEmptyResultOutcome (env call) = true →
      safe_summarize env call = (.pyNone, .pyStr "Model returned empty result")) ∧
    (isMalformedOutcome (env call) = true → ∃ v, env call = .returned v ∧
      safe_summarize env call =
        (.pyNone, .pyStr ("Model returned invalid result structure: " ++ pyRepr v))) ∧
    (isInternalIndexOutcome (env call) = true →
      safe_summarize env call =
        (.pyNone, .pyStr "Model pipeline failed internally (index out of range)")) ∧
    (isOtherFaultOutcome (env call) = true →
      ∃ m, safe_summarize env call = (.pyNone, .pyStr m) ∧ m ≠ "") ∧
    (isSuccessOutcome (env call) = true → ∃ entries rest v,
      env call = .returned (.pyList (.pyDict entries :: rest)) ∧
      entries.lookup "summary_text" = some v ∧
      safe_summarize env call = (v, .pyNone)) := by
  refine ⟨outcomeClass_unique _, ?_, ss_empty_eq env call, ss_malformed_eq env call,
    ss_internal_eq env call, ss_other_eq env call, ss_success_eq env call⟩
  rcases ss_master env call with ⟨hn, _⟩ | ⟨hn, _⟩
  · exact Or.inr hn
  · exact Or.inl hn

/-- **C3 counterexample**: the engine outcome `[{"summary_text": None}]`
(a returned value, hence within the claim's "outcome of any shape") makes
`safe_summarize` return `(None, None)` — the pair is neither
`(summaryText, none)` with a summary text nor `(none, reason)` with a
reason: both components are cleared at once. -/
theorem C3_both_none_counterexample :
    safe_summarize (fun _ => .returned (.pyList [.pyDict [("summary_text", .pyNone)]]))
      ⟨"bart", "hello", 300, 100, false⟩ = (.pyNone, .pyNone) := rfl

/-- **C3 witness**: the classification theorem applied to a concrete
raised engine fault (`str` "boom"): the other-fault class yields
`(None, reason)` with a non-empty reason. -/
theorem C3_safe_summarize_classification_witness :
    ∃ m, safe_summarize (fun _ => .raisedOther "boom")
      ⟨"bart", "hi", 300, 100, false⟩ = (.pyNone, .pyStr m) ∧ m ≠ "" :=
  (C3_safe_summarize_classification (fun _ => .raisedOther "boom")
    ⟨"bart", "hi", 300, 100, false⟩).2.2.2.2.2.1 rfl

/-! ### Reduction lemmas for the orchestrator -/

theorem primary_bart (env : EngineEnv) (t : String) (a b : Nat) :
    primaryAttempt env t "bart" a b =
      { outcome := if pyTruthy (safe_summarize env ⟨"bart", t, a, b, false⟩).2 then
          .error ("BART model failed: " ++
            pyStrOf (safe_summarize env ⟨"bart", t, a, b, false⟩).2)
        else .ok (safe_summarize env ⟨"bart", t, a, b, false⟩).1
        calls := [⟨"bart", t, a, b, false⟩]
        prints := if pyTruthy (safe_summarize env ⟨"bart", t, a, b, false⟩).2 then
          ["BART safe_summarize error: " ++
            pyStrOf (safe_summarize env ⟨"bart", t, a, b, false⟩).2]
        else [] } := by
  unfold primaryAttempt
  rw [if_pos rfl]

theorem primary_t5 (env : EngineEnv) (t : String) (a b : Nat) :
    primaryAttempt env t "t5" a b =
      { outcome := if pyTruthy (safe_summarize env
            ⟨"t5", if (pySplit t).length > 1500 then
                "summarize: " ++ pyJoin " " ((pySplit t).take 1500)
              else "summarize: " ++ t, a, b, false⟩).2 then
          .error ("T5 model failed: " ++ pyStrOf (safe_summarize env
            ⟨"t5", if (pySplit t).length > 1500 then
                "summarize: " ++ pyJoin " " ((pySplit t).take 1500)
              else "summarize: " ++ t, a, b, false⟩).2)
        else .ok (safe_summarize env
            ⟨"t5", if (pySplit t).length > 1500 then
                "summarize: " ++ pyJoin " " ((pySplit t).take 1500)
              else "summarize: " ++ t, a, b, false⟩).1
        calls := [⟨"t5", if (pySplit t).length > 1500 then
            "summarize: " ++ pyJoin " " ((pySplit t).take 1500)
          else "summarize: " ++ t, a, b, false⟩]
        prints := (if (pySplit t).length > 1500 then
            ["Note: Transcript was very long and was truncated for T5 model"]
          else []) ++
          (if pyTruthy (safe_summarize env
              ⟨"t5", if (pySplit t).length > 1500 then
                  "summarize: " ++ pyJoin " " ((pySplit t).take 1500)
                else "summarize: " ++ t, a, b, false⟩).2 then
            ["T5 safe_summarize error: " ++ pyStrOf (safe_summarize env
              ⟨"t5", if (pySplit t).length > 1500 then
                  "summarize: " ++ pyJoin " " ((pySplit t).take 1500)
                else "summarize: " ++ t, a, b, false⟩).2]
          else []) } := by
  unfold primaryAttempt
  rw [if_neg (by decide), if_pos rfl]

theorem primary_other (env : EngineEnv) (t m : String) (a b : Nat)
    (hb : m ≠ "bart") (ht : m ≠ "t5") :
    primaryAttempt env t m a b =
      { outcome := .ok (.pyStr ("Unknown model: " ++ m)), calls := [], prints := [] } := by
  unfold primaryAttempt
  rw [if_neg hb, if_neg ht]

theorem fallback_bart (env : EngineEnv) (t : String) (a b : Nat) :
    fallbackAttempt env t "bart" a b =
      { outcome := if pyTruthy (safe_summarize env
            ⟨"bart", pyJoin " " ((pySplit t).take 500), a, b, false⟩).2 then
          .error ("BART final fallback failed: " ++ pyStrOf (safe_summarize env
            ⟨"bart", pyJoin " " ((pySplit t).take 500), a, b, false⟩).2)
        else .ok (safe_summarize env
            ⟨"bart", pyJoin " " ((pySplit t).take 500), a, b, false⟩).1
        calls := [⟨"bart", pyJoin " " ((pySplit t).take 500), a, b, false⟩]
        prints := [] } := by
  unfold fallbackAttempt
  rw [if_pos rfl]

theorem fallback_t5 (env : EngineEnv) (t : String) (a b : Nat) :
    fallbackAttempt env t "t5" a b =
      { outcome := if pyTruthy (safe_summarize env
            ⟨"t5", "summarize: " ++ pyJoin " " ((pySplit t).take 500), a, b, false⟩).2 then
          .error ("T5 final fallback failed: " ++ pyStrOf (safe_summarize env
            ⟨"t5", "summarize: " ++ pyJoin " " ((pySplit t).take 500), a, b, false⟩).2)
        else .ok (safe_summarize env
            ⟨"t5", "summarize: " ++ pyJoin " " ((pySplit t).take 500), a, b, false⟩).1
        calls := [⟨"t5", "summarize: " ++ pyJoin " " ((pySplit t).take 500), a, b, false⟩]
        prints := [] } := by
  unfold fallbackAttempt
  rw [if_neg (by decide), if_pos rfl]

theorem st_eq_blank (env : EngineEnv) (t m : String) (a b : Nat)
    (h : pyStrip t = "") :
    summarize_transcript env t m a b =
      ⟨.pyStr "No transcript available to summarize.", [], []⟩ := by
  unfold summarize_transcript
  rw [if_pos h]

theorem st_eq_ok (env : EngineEnv) (t m : String) (a b : Nat) (v : PyVal)
    (h : pyStrip t ≠ "") (hp : (primaryAttempt env t m a b).outcome = .ok v) :
    summarize_transcript env t m a b =
      ⟨v, (primaryAttempt env t m a b).calls, (primaryAttempt env t m a b).prints⟩ := by
  unfold summarize_transcript
  rw [if_neg h]
  dsimp only
  rw [hp]

theorem st_eq_fallback_ok (env : EngineEnv) (t m : String) (a b : Nat) (e : String)
    (v : PyVal) (h : pyStrip t ≠ "")
    (hp : (primaryAttempt env t m a b).outcome = .error e)
    (hf : (fallbackAttempt env t m a b).outcome = .ok v) :
    summarize_transcript env t m a b =
      ⟨v, (primaryAttempt env t m a b).calls ++ (fallbackAttempt env t m a b).calls,
        ((primaryAttempt env t m a b).prints ++
          ["Error in single-pass summarization: " ++ e,
           "Final fallback: trying with much shorter input..."]) ++
          (fallbackAttempt env t m a b).prints⟩ := by
  unfold summarize_transcript
  rw [if_neg h]
  dsimp only
  rw [hp]
  dsimp only
  rw [hf]

theorem st_eq_fallback_error (env : EngineEnv) (t m : String) (a b : Nat)
    (e fe : String) (h : pyStrip t ≠ "")
    (hp : (primaryAttempt env t m a b).outcome = .error e)
    (hf : (fallbackAttempt env t m a b).outcome = .error fe) :
    summarize_transcript env t m a b =
      ⟨.pyStr ("Failed to generate summary after all attempts: " ++ e),
        (primaryAttempt env t m a b).calls ++ (fallbackAttempt env t m a b).calls,
        (((primaryAttempt env t m a b).prints ++
          ["Error in single-pass summarization: " ++ e,
           "Final fallback: trying with much shorter input..."]) ++
          (fallbackAttempt env t m a b).prints) ++
          ["All fallbacks failed: " ++ fe]⟩ := by
  unfold summarize_transcript
  rw [if_neg h]
  dsimp only
  rw [hp]
  dsimp only
  rw [hf]

/-! ### Further helper lemmas -/

theorem note_ne_t5err (m : String) :
    "Note: Transcript was very long and was truncated for T5 model" ≠
      "T5 safe_summarize error: " ++ m := by
  intro he
  have h2 := congrArg (fun s => s.data.head?) he
  simp only at h2
  have h3 : ("T5 safe_summarize error: " ++ m).data.head? = some 'T' := rfl
  have h4 : ("Note: Transcript was very long and was truncated for T5 model" :
      String).data.head? = some 'N' := rfl
  rw [h3, h4] at h2
  exact absurd h2 (by decide)

theorem malformed_msg_ne_empty_result (v : PyVal) :
    "Model returned invalid result structure: " ++ pyRepr v ≠
      "Model returned empty result" := by
  intro he
  have h2 := congrArg String.length he
  rw [String.length_append] at h2
  have e1 : ("Model returned invalid result structure: " : String).length = 41 := by decide
  have e2 : ("Model returned empty result" : String).length = 27 := by decide
  rw [e1, e2] at h2
  omega

/-- Under the benign-engine condition, a non-truthy error component means
the summary component is a Python string. -/
theorem ss_fst_str (env : EngineEnv) (c : EngineCall)
    (hstr : extractedSummaryIsStr (env c) = true)
    (h : pyTruthy (safe_summarize env c).2 = false) :
    ∃ s, (safe_summarize env c).1 = .pyStr s := by
  rcases ss_not_truthy env c h with ⟨_, _, entries, rest, v, ho, hlk, hv⟩
  rw [ho] at hstr
  cases v with
  | pyStr s => exact ⟨s, by rw [hv]⟩
  | pyNone => simp [extractedSummaryIsStr, hlk] at hstr
  | pyList l => simp [extractedSummaryIsStr, hlk] at hstr
  | pyDict d => simp [extractedSummaryIsStr, hlk] at hstr
  | pyOther b r => simp [extractedSummaryIsStr, hlk] at hstr

/-- A one-element list whose dict stores the empty string under
`"summary_text"` is a success with extracted summary `""`. -/
theorem ss_empty_string_success (env : EngineEnv) (c : EngineCall)
    (entries : List (String × PyVal))
    (ho : env c = .returned (.pyList [.pyDict entries]))
    (hlk : entries.lookup "summary_text" = some (.pyStr "")) :
    safe_summarize env c = (.pyStr "", .pyNone) := by
  rw [safe_summarize_returned env c _ ho]
  have hguard : (!pyTruthy (PyVal.pyList [PyVal.pyDict entries]) ||
      !isPyList (PyVal.pyList [PyVal.pyDict entries]) ||
      (pyListItems (PyVal.pyList [PyVal.pyDict entries])).length == 0) = false := by
    simp [pyTruthy, isPyList, pyListItems]
  rw [hguard]
  simp only [Bool.false_eq_true, if_false]
  rw [if_neg (by simp [isPyDict, pyListItems, pyDictEntries, hlk])]
  simp [pyListItems, pyDictEntries, hlk]

theorem primary_calls_ds (env : EngineEnv) (t m : String) (a b : Nat) :
    ∀ c ∈ (primaryAttempt env t m a b).calls, c.do_sample = false := by
  intro c hc
  by_cases hb : m = "bart"
  · subst hb
    rw [primary_bart] at hc
    simp at hc
    subst hc
    rfl
  · by_cases ht : m = "t5"
    · subst ht
      rw [primary_t5] at hc
      simp at hc
      subst hc
      rfl
    · rw [primary_other env t m a b hb ht] at hc
      simp at hc

theorem fallback_calls_ds (env : EngineEnv) (t m : String) (a b : Nat) :
    ∀ c ∈ (fallbackAttempt env t m a b).calls, c.do_sample = false := by
  intro c hc
  by_cases hb : m = "bart"
  · subst hb
    rw [fallback_bart] at hc
    simp at hc
    subst hc
    rfl
  · by_cases ht : m = "t5"
    · subst ht
      rw [fallback_t5] at hc
      simp at hc
      subst hc
      rfl
    · unfold fallbackAttempt at hc
      rw [if_neg hb, if_neg ht] at hc
      simp at hc

theorem calls_do_sample_false (env : EngineEnv) (t m : String) (a b : Nat) :
    ∀ c ∈ (summarize_transcript env t m a b).calls, c.do_sample = false := by
  intro c hc
  by_cases hblank : pyStrip t = ""
  · rw [st_eq_blank env t m a b hblank] at hc
    simp at hc
  · cases hp : (primaryAttempt env t m a b).outcome with
    | ok v =>
      rw [st_eq_ok env t m a b v hblank hp] at hc
      exact primary_calls_ds env t m a b c hc
    | error e =>
      cases hf : (fallbackAttempt env t m a b).outcome with
      | ok v =>
        rw [st_eq_fallback_ok env t m a b e v hblank hp hf] at hc
        rcases List.mem_append.mp hc with hc | hc
        · exact primary_calls_ds env t m a b c hc
        · exact fallback_calls_ds env t m a b c hc
      | error fe =>
        rw [st_eq_fallback_error env t m a b e fe hblank hp hf] at hc
        rcases List.mem_append.mp hc with hc | hc
        · exact primary_calls_ds env t m a b c hc
        · exact fallback_calls_ds env t m a b c hc

/-! ### Claim C8 -/

/-- **C8**: for every transcript that strips to the empty string (empty or
whitespace-only), `summarize_transcript` returns exactly the fixed
"nothing to summarize" message, for every model selector (valid or
unknown), with an empty engine-call trace (no engine call) and no printed
output. -/
theorem C8_blank_transcript (env : EngineEnv) (transcript model : String)
    (max_length min_length : Nat) (h : pyStrip transcript = "") :
    summarize_transcript env transcript model max_length min_length =
      ⟨.pyStr "No transcript available to summarize.", [], []⟩ :=
  st_eq_blank env transcript model max_length min_length h

/-- **C8 witness**: the whitespace-only transcript `"   "` with the
unknown selector `"gpt4"` and an engine that would fault if called. -/
theorem C8_blank_transcript_witness :
    summarize_transcript (fun _ => .raisedOther "x") "   " "gpt4" 300 100 =
      ⟨.pyStr "No transcript available to summarize.", [], []⟩ :=
  C8_blank_transcript (fun _ => .raisedOther "x") "   " "gpt4" 300 100 rfl

/-! ### Claim C4 -/

/-- **C4**: for every transcript with non-whitespace content and every
selector that is neither "bart" nor "t5", `summarize_transcript` returns
immediately the failure string identifying the unknown model, with an
empty engine-call trace — no engine invocation and no fallback attempt —
and the selector is never replaced by a default engine (the returned
string names the selector itself). -/
theorem C4_unknown_model (env : EngineEnv) (transcript model : String)
    (max_length min_length : Nat) (hts : pyStrip transcript ≠ "")
    (hb : model ≠ "bart") (ht : model ≠ "t5") :
    summarize_transcript env transcript model max_length min_length =
      ⟨.pyStr ("Unknown model: " ++ model), [], []⟩ := by
  have hp := primary_other env transcript model max_length min_length hb ht
  have hst := st_eq_ok env transcript model max_length min_length
    (.pyStr ("Unknown model: " ++ model)) hts (by rw [hp])
  rw [hst, hp]

/-- **C4 witness**: transcript `"hello"` with the unknown selector
`"gpt4"` against an engine that would fault if called. -/
theorem C4_unknown_model_witness :
    summarize_transcript (fun _ => .raisedOther "x") "hello" "gpt4" 300 100 =
      ⟨.pyStr ("Unknown model: " ++ "gpt4"), [], []⟩ :=
  C4_unknown_model (fun _ => .raisedOther "x") "hello" "gpt4" 300 100
    (by decide) (by decide) (by decide)

/-! ### Claim C9 -/

/-- **C9**: `summarize_transcript` is deterministic — two invocations with
identical transcript, selector and bounds against the same (extensionally
equal) engine behaviour produce identical outcomes — and every engine
call the core makes carries `do_sample = False`, so a deterministic
non-sampling engine receives no sampling request from the core. -/
theorem C9_deterministic (env1 env2 : EngineEnv) (transcript model : String)
    (max_length min_length : Nat) (henv : ∀ c, env1 c = env2 c) :
    summarize_transcript env1 transcript model max_length min_length =
      summarize_transcript env2 transcript model max_length min_length ∧
    ∀ c ∈ (summarize_transcript env1 transcript model max_length min_length).calls,
      c.do_sample = false := by
  have he : env1 = env2 := funext henv
  subst he
  exact ⟨rfl, calls_do_sample_false env1 transcript model max_length min_length⟩

/-- **C9 witness**: determinism and `do_sample = False` at a concrete
engine behaviour, transcript and bounds. -/
theorem C9_deterministic_witness :
    summarize_transcript (fun _ => .raisedOther "boom") "hello" "bart" 300 100 =
      summarize_transcript (fun _ => .raisedOther "boom") "hello" "bart" 300 100 ∧
    ∀ c ∈ (summarize_transcript (fun _ => .raisedOther "boom") "hello" "bart" 300 100).calls,
      c.do_sample = false :=
  C9_deterministic (fun _ => .raisedOther "boom") (fun _ => .raisedOther "boom")
    "hello" "bart" 300 100 (fun _ => rfl)

/-! ### Claim C2 -/

/-- **C2**: for a non-blank transcript and a known selector, if the
primary single-pass invocation fails (its attempt raises with message
`e`), exactly one fallback engine call is made — on the first 500
whitespace-delimited words of the transcript (with the `"summarize: "`
prefix for "t5") and with the same `max_length`/`min_length` bounds, for
a total of exactly two engine calls — and if the fallback attempt
returns normally its value is the final result, while if the fallback
also fails the returned failure message is built from the primary
failure's message `e`, not the fallback's. -/
theorem C2_fallback (env : EngineEnv) (transcript model : String)
    (max_length min_length : Nat) (e : String)
    (hm : model = "bart" ∨ model = "t5") (hts : pyStrip transcript ≠ "")
    (hp : (primaryAttempt env transcript model max_length min_length).outcome = .error e) :
    (fallbackAttempt env transcript model max_length min_length).calls =
      [⟨model, (if model = "t5" then "summarize: " else "") ++
          pyJoin " " ((pySplit transcript).take 500),
        max_length, min_length, false⟩] ∧
    (summarize_transcript env transcript model max_length min_length).calls =
      (primaryAttempt env transcript model max_length min_length).calls ++
        (fallbackAttempt env transcript model max_length min_length).calls ∧
    (summarize_transcript env transcript model max_length min_length).calls.length = 2 ∧
    (∀ v, (fallbackAttempt env transcript model max_length min_length).outcome = .ok v →
      (summarize_transcript env transcript model max_length min_length).retval = v) ∧
    (∀ fe, (fallbackAttempt env transcript model max_length min_length).outcome = .error fe →
      (summarize_transcript env transcript model max_length min_length).retval =
        .pyStr ("Failed to generate summary after all attempts: " ++ e)) := by
  rcases hm with hm | hm
  · subst hm
    have hpc : (primaryAttempt env transcript "bart" max_length min_length).calls =
        [⟨"bart", transcript, max_length, min_length, false⟩] := by
      rw [primary_bart]
    have hfc : (fallbackAttempt env transcript "bart" max_length min_length).calls =
        [⟨"bart", pyJoin " " ((pySplit transcript).take 500),
          max_length, min_length, false⟩] := by
      rw [fallback_bart]
    have hif : ((if ("bart" : String) = "t5" then "summarize: " else "") ++
        pyJoin " " ((pySplit transcript).take 500)) =
        pyJoin " " ((pySplit transcript).take 500) := by
      rw [if_neg (by decide)]
      rfl
    refine ⟨?_, ?_, ?_, ?_, ?_⟩
    · rw [hfc, hif]
    · cases hf : (fallbackAttempt env transcript "bart" max_length min_length).outcome with
      | ok v =>
        rw [st_eq_fallback_ok env transcript "bart" max_length min_length e v hts hp hf]
      | error fe =>
        rw [st_eq_fallback_error env transcript "bart" max_length min_length e fe hts hp hf]
    · cases hf : (fallbackAttempt env transcript "bart" max_length min_length).outcome with
      | ok v =>
        rw [st_eq_fallback_ok env transcript "bart" max_length min_length e v hts hp hf]
        rw [hpc, hfc]
        rfl
      | error fe =>
        rw [st_eq_fallback_error env transcript "bart" max_length min_length e fe hts hp hf]
        rw [hpc, hfc]
        rfl
    · intro v hf
      rw [st_eq_fallback_ok env transcript "bart" max_length min_length e v hts hp hf]
    · intro fe hf
      rw [st_eq_fallback_error env transcript "bart" max_length min_length e fe hts hp hf]
  · subst hm
    have hpc : (primaryAttempt env transcript "t5" max_length min_length).calls.length = 1 := by
      rw [primary_t5]
      rfl
    have hfc : (fallbackAttempt env transcript "t5" max_length min_length).calls =
        [⟨"t5", "summarize: " ++ pyJoin " " ((pySplit transcript).take 500),
          max_length, min_length, false⟩] := by
      rw [fallback_t5]
    have hif : ((if ("t5" : String) = "t5" then "summarize: " else "") ++
        pyJoin " " ((pySplit transcript).take 500)) =
        "summarize: " ++ pyJoin " " ((pySplit transcript).take 500) := by
      rw [if_pos rfl]
    refine ⟨?_, ?_, ?_, ?_, ?_⟩
    · rw [hfc, hif]
    · cases hf : (fallbackAttempt env transcript "t5" max_length min_length).outcome with
      | ok v =>
        rw [st_eq_fallback_ok env transcript "t5" max_length min_length e v hts hp hf]
      | error fe =>
        rw [st_eq_fallback_error env transcript "t5" max_length min_length e fe hts hp hf]
    · cases hf : (fallbackAttempt env transcript "t5" max_length min_length).outcome with
      | ok v =>
        rw [st_eq_fallback_ok env transcript "t5" max_length min_length e v hts hp hf]
        rw [List.length_append, hpc, hfc]
        rfl
      | error fe =>
        rw [st_eq_fallback_error env transcript "t5" max_length min_length e fe hts hp hf]
        rw [List.length_append, hpc, hfc]
        rfl
    · intro v hf
      rw [st_eq_fallback_ok env transcript "t5" max_length min_length e v hts hp hf]
    · intro fe hf
      rw [st_eq_fallback_error env transcript "t5" max_length min_length e fe hts hp hf]

/-- **C2 witness**: an engine that always raises (`str` "boom"): the
primary BART attempt fails with message
`"BART model failed: Model error: boom"`, the single fallback call is made
on the truncated transcript with the same bounds, both calls appear in
the trace, and the final message reports the primary failure. -/
theorem C2_fallback_witness :
    (fallbackAttempt (fun _ => .raisedOther "boom") "hello world" "bart" 300 100).calls =
      [⟨"bart", (if ("bart" : String) = "t5" then "summarize: " else "") ++
          pyJoin " " ((pySplit "hello world").take 500), 300, 100, false⟩] ∧
    (summarize_transcript (fun _ => .raisedOther "boom") "hello world" "bart" 300 100).calls =
      (primaryAttempt (fun _ => .raisedOther "boom") "hello world" "bart" 300 100).calls ++
        (fallbackAttempt (fun _ => .raisedOther "boom") "hello world" "bart" 300 100).calls ∧
    (summarize_transcript (fun _ => .raisedOther "boom")
      "hello world" "bart" 300 100).calls.length = 2 ∧
    (∀ v, (fallbackAttempt (fun _ => .raisedOther "boom")
        "hello world" "bart" 300 100).outcome = .ok v →
      (summarize_transcript (fun _ => .raisedOther "boom")
        "hello world" "bart" 300 100).retval = v) ∧
    (∀ fe, (fallbackAttempt (fun _ => .raisedOther "boom")
        "hello world" "bart" 300 100).outcome = .error fe →
      (summarize_transcript (fun _ => .raisedOther "boom")
        "hello world" "bart" 300 100).retval =
        .pyStr ("Failed to generate summary after all attempts: " ++
          "BART model failed: Model error: boom")) :=
  C2_fallback (fun _ => .raisedOther "boom") "hello world" "bart" 300 100
    "BART model failed: Model error: boom" (Or.inl rfl) (by decide) rfl

/-! ### Claim C6 -/

/-- **C6**: with selector "t5" and a non-blank transcript, the primary
engine call's submitted text is always a deterministic function of the
transcript prefix: when the transcript has more than 1500
whitespace-delimited words, exactly `"summarize: "` followed by the first
1500 words joined by single spaces, with the truncation reported in the
printed side note; when it has at most 1500 words, the untruncated
`"summarize: " ++ transcript`, with no truncation note.  The first entry
of `summarize_transcript`'s engine-call trace is exactly that primary
call. -/
theorem C6_t5_truncation (env : EngineEnv) (transcript : String)
    (max_length min_length : Nat) (hts : pyStrip transcript ≠ "") :
    ((pySplit transcript).length > 1500 →
      (primaryAttempt env transcript "t5" max_length min_length).calls =
        [⟨"t5", "summarize: " ++ pyJoin " " ((pySplit transcript).take 1500),
          max_length, min_length, false⟩] ∧
      "Note: Transcript was very long and was truncated for T5 model" ∈
        (primaryAttempt env transcript "t5" max_length min_length).prints) ∧
    (¬(pySplit transcript).length > 1500 →
      (primaryAttempt env transcript "t5" max_length min_length).calls =
        [⟨"t5", "summarize: " ++ transcript, max_length, min_length, false⟩] ∧
      "Note: Transcript was very long and was truncated for T5 model" ∉
        (primaryAttempt env transcript "t5" max_length min_length).prints) ∧
    (∃ c, (primaryAttempt env transcript "t5" max_length min_length).calls = [c] ∧
      (summarize_transcript env transcript "t5" max_length min_length).calls.head? =
        some c) := by
  refine ⟨?_, ?_, ?_⟩
  · intro hlong
    rw [primary_t5]
    constructor
    · simp only [if_pos hlong]
    · simp only [if_pos hlong]
      simp
  · intro hshort
    rw [primary_t5]
    constructor
    · simp only [if_neg hshort]
    · simp only [if_neg hshort]
      simp only [List.nil_append]
      by_cases htr : pyTruthy (safe_summarize env
          ⟨"t5", "summarize: " ++ transcript, max_length, min_length, false⟩).2 = true
      · simp only [if_pos htr]
        simp [note_ne_t5err]
      · simp only [if_neg htr]
        simp
  · refine ⟨⟨"t5", if (pySplit transcript).length > 1500 then
        "summarize: " ++ pyJoin " " ((pySplit transcript).take 1500)
      else "summarize: " ++ transcript, max_length, min_length, false⟩, ?_, ?_⟩
    · rw [primary_t5]
    · cases hp : (primaryAttempt env transcript "t5" max_length min_length).outcome with
      | ok v =>
        rw [st_eq_ok env transcript "t5" max_length min_length v hts hp]
        rw [primary_t5]
        rfl
      | error e =>
        cases hf : (fallbackAttempt env transcript "t5" max_length min_length).outcome with
        | ok v =>
          rw [st_eq_fallback_ok env transcript "t5" max_length min_length e v hts hp hf]
          rw [primary_t5]
          rfl
        | error fe =>
          rw [st_eq_fallback_error env transcript "t5" max_length min_length e fe hts hp hf]
          rw [primary_t5]
          rfl

/-- **C6 witness**: the five-letter transcript `"hello"` (one word, below
the ceiling) against a concrete engine: the claim instance holds; in
particular its short-transcript branch applies with the untruncated
submission. -/
theorem C6_t5_truncation_witness :
    ((pySplit "hello").length > 1500 →
      (primaryAttempt (fun _ => .raisedOther "x") "hello" "t5" 300 100).calls =
        [⟨"t5", "summarize: " ++ pyJoin " " ((pySplit "hello").take 1500),
          300, 100, false⟩] ∧
      "Note: Transcript was very long and was truncated for T5 model" ∈
        (primaryAttempt (fun _ => .raisedOther "x") "hello" "t5" 300 100).prints) ∧
    (¬(pySplit "hello").length > 1500 →
      (primaryAttempt (fun _ => .raisedOther "x") "hello" "t5" 300 100).calls =
        [⟨"t5", "summarize: " ++ "hello", 300, 100, false⟩] ∧
      "Note: Transcript was very long and was truncated for T5 model" ∉
        (primaryAttempt (fun _ => .raisedOther "x") "hello" "t5" 300 100).prints) ∧
    (∃ c, (primaryAttempt (fun _ => .raisedOther "x") "hello" "t5" 300 100).calls = [c] ∧
      (summarize_transcript (fun _ => .raisedOther "x") "hello" "t5" 300 100).calls.head? =
        some c) :=
  C6_t5_truncation (fun _ => .raisedOther "x") "hello" 300 100 (by decide)

/-! ### Claim C1 -/

/-- **C1 (amended)**: for every non-blank transcript, known selector, and
engine behaviour that stores a *string* under `"summary_text"` whenever it
returns a successful shape (as real summarization pipelines do), the
orchestrator returns a Python string — a summary (possibly empty) or an
explicit failure message.  In particular it never returns `None` and, by
totality of the embedding (every exception arm of the source is covered),
never lets a fault escape its boundary. -/
theorem C1_total_string_result (env : EngineEnv) (transcript model : String)
    (max_length min_length : Nat)
    (hm : model = "bart" ∨ model = "t5") (hts : pyStrip transcript ≠ "")
    (hstr : ∀ c, extractedSummaryIsStr (env c) = true) :
    ∃ s, (summarize_transcript env transcript model max_length min_length).retval =
      .pyStr s := by
  rcases hm with hm | hm
  · subst hm
    by_cases h1 : pyTruthy (safe_summarize env
        ⟨"bart", transcript, max_length, min_length, false⟩).2 = true
    · have hp : (primaryAttempt env transcript "bart" max_length min_length).outcome =
          .error ("BART model failed: " ++ pyStrOf (safe_summarize env
            ⟨"bart", transcript, max_length, min_length, false⟩).2) := by
        rw [primary_bart, if_pos h1]
      by_cases h2 : pyTruthy (safe_summarize env
          ⟨"bart", pyJoin " " ((pySplit transcript).take 500),
            max_length, min_length, false⟩).2 = true
      · have hf : (fallbackAttempt env transcript "bart" max_length min_length).outcome =
            .error ("BART final fallback failed: " ++ pyStrOf (safe_summarize env
              ⟨"bart", pyJoin " " ((pySplit transcript).take 500),
                max_length, min_length, false⟩).2) := by
          rw [fallback_bart, if_pos h2]
        exact ⟨_, by
          rw [st_eq_fallback_error env transcript "bart" max_length min_length _ _ hts hp hf]⟩
      · have h2f : pyTruthy (safe_summarize env
            ⟨"bart", pyJoin " " ((pySplit transcript).take 500),
              max_length, min_length, false⟩).2 = false := by
          simpa using h2
        have hf : (fallbackAttempt env transcript "bart" max_length min_length).outcome =
            .ok ((safe_summarize env ⟨"bart", pyJoin " " ((pySplit transcript).take 500),
              max_length, min_length, false⟩).1) := by
          rw [fallback_bart, if_neg h2]
        obtain ⟨s, hs⟩ := ss_fst_str env
          ⟨"bart", pyJoin " " ((pySplit transcript).take 500),
            max_length, min_length, false⟩ (hstr _) h2f
        exact ⟨s, by
          rw [st_eq_fallback_ok env transcript "bart" max_length min_length _ _ hts hp hf]
          exact hs⟩
    · have h1f : pyTruthy (safe_summarize env
          ⟨"bart", transcript, max_length, min_length, false⟩).2 = false := by
        simpa using h1
      have hp : (primaryAttempt env transcript "bart" max_length min_length).outcome =
          .ok ((safe_summarize env ⟨"bart", transcript, max_length, min_length, false⟩).1) := by
        rw [primary_bart, if_neg h1]
      obtain ⟨s, hs⟩ := ss_fst_str env
        ⟨"bart", transcript, max_length, min_length, false⟩ (hstr _) h1f
      exact ⟨s, by
        rw [st_eq_ok env transcript "bart" max_length min_length _ hts hp]
        exact hs⟩
  · subst hm
    by_cases h1 : pyTruthy (safe_summarize env
        ⟨"t5", if (pySplit transcript).length > 1500 then
            "summarize: " ++ pyJoin " " ((pySplit transcript).take 1500)
          else "summarize: " ++ transcript, max_length, min_length, false⟩).2 = true
    · have hp : (primaryAttempt env transcript "t5" max_length min_length).outcome =
          .error ("T5 model failed: " ++ pyStrOf (safe_summarize env
            ⟨"t5", if (pySplit transcript).length > 1500 then
                "summarize: " ++ pyJoin " " ((pySplit transcript).take 1500)
              else "summarize: " ++ transcript, max_length, min_length, false⟩).2) := by
        rw [primary_t5, if_pos h1]
      by_cases h2 : pyTruthy (safe_summarize env
          ⟨"t5", "summarize: " ++ pyJoin " " ((pySplit transcript).take 500),
            max_length, min_length, false⟩).2 = true
      · have hf : (fallbackAttempt env transcript "t5" max_length min_length).outcome =
            .error ("T5 final fallback failed: " ++ pyStrOf (safe_summarize env
              ⟨"t5", "summarize: " ++ pyJoin " " ((pySplit transcript).take 500),
                max_length, min_length, false⟩).2) := by
          rw [fallback_t5, if_pos h2]
        exact ⟨_, by
          rw [st_eq_fallback_error env transcript "t5" max_length min_length _ _ hts hp hf]⟩
      · have h2f : pyTruthy (safe_summarize env
            ⟨"t5", "summarize: " ++ pyJoin " " ((pySplit transcript).take 500),
              max_length, min_length, false⟩).2 = false := by
          simpa using h2
        have hf : (fallbackAttempt env transcript "t5" max_length min_length).outcome =
            .ok ((safe_summarize env ⟨"t5", "summarize: " ++
              pyJoin " " ((pySplit transcript).take 500),
              max_length, min_length, false⟩).1) := by
          rw [fallback_t5, if_neg h2]
        obtain ⟨s, hs⟩ := ss_fst_str env
          ⟨"t5", "summarize: " ++ pyJoin " " ((pySplit transcript).take 500),
            max_length, min_length, false⟩ (hstr _) h2f
        exact ⟨s, by
          rw [st_eq_fallback_ok env transcript "t5" max_length min_length _ _ hts hp hf]
          exact hs⟩
    · have h1f : pyTruthy (safe_summarize env
          ⟨"t5", if (pySplit transcript).length > 1500 then
              "summarize: " ++ pyJoin " " ((pySplit transcript).take 1500)
            else "summarize: " ++ transcript, max_length, min_length, false⟩).2 = false := by
        simpa using h1
      have hp : (primaryAttempt env transcript "t5" max_length min_length).outcome =
          .ok ((safe_summarize env ⟨"t5", if (pySplit transcript).length > 1500 then
              "summarize: " ++ pyJoin " " ((pySplit transcript).take 1500)
            else "summarize: " ++ transcript, max_length, min_length, false⟩).1) := by
        rw [primary_t5, if_neg h1]
      obtain ⟨s, hs⟩ := ss_fst_str env
        ⟨"t5", if (pySplit transcript).length > 1500 then
            "summarize: " ++ pyJoin " " ((pySplit transcript).take 1500)
          else "summarize: " ++ transcript, max_length, min_length, false⟩ (hstr _) h1f
      exact ⟨s, by
        rw [st_eq_ok env transcript "t5" max_length min_length _ hts hp]
        exact hs⟩

/-- **C1 counterexample**: the claim as stated requires a *non-empty*
summary string and forbids an empty result; an engine whose outcome is
`[{"summary_text": ""}]` makes `summarize_transcript` return the empty
string for a non-empty transcript and the known selector "bart". -/
theorem C1_empty_summary_counterexample :
    (summarize_transcript
      (fun _ => .returned (.pyList [.pyDict [("summary_text", .pyStr "")]]))
      "hello world" "bart" 300 100).retval = .pyStr "" := rfl

/-- **C1 witness**: a concrete benign engine (summary `"OK"`), transcript
`"hello"`, selector "bart". -/
theorem C1_total_string_result_witness :
    ∃ s, (summarize_transcript
      (fun _ => .returned (.pyList [.pyDict [("summary_text", .pyStr "OK")]]))
      "hello" "bart" 300 100).retval = .pyStr s :=
  C1_total_string_result
    (fun _ => .returned (.pyList [.pyDict [("summary_text", .pyStr "OK")]]))
    "hello" "bart" 300 100 (Or.inl rfl) (by decide) (fun _ => rfl)

/-! ### Claim C10 -/

/-- **C10**: if the engine pipeline returns a one-element list whose dict
maps `"summary_text"` to the empty string, `safe_summarize` classifies it
as success and returns `("", None)`; for returned values, the
empty-result failure branch fires exactly when the value is not a list or
is an empty list — never because the extracted summary string is empty;
and `summarize_transcript` then passes the empty string through to its
caller. -/
theorem C10_empty_summary_passthrough :
    (∀ (env : EngineEnv) (call : EngineCall) (entries : List (String × PyVal)),
      env call = .returned (.pyList [.pyDict entries]) →
      entries.lookup "summary_text" = some (.pyStr "") →
      safe_summarize env call = (.pyStr "", .pyNone)) ∧
    (∀ (env : EngineEnv) (call : EngineCall) (v : PyVal), env call = .returned v →
      ((safe_summarize env call).2 = .pyStr "Model returned empty result" ↔
        (isPyList v = false ∨ pyListItems v = []))) ∧
    (∀ (env : EngineEnv) (transcript : String) (a b : Nat),
      pyStrip transcript ≠ "" →
      env ⟨"bart", transcript, a, b, false⟩ =
        .returned (.pyList [.pyDict [("summary_text", .pyStr "")]]) →
      (summarize_transcript env transcript "bart" a b).retval = .pyStr "") := by
  refine ⟨ss_empty_string_success, ?_, ?_⟩
  · intro env call v ho
    constructor
    · intro hsnd
      cases v with
      | pyNone => left; rfl
      | pyStr s => left; rfl
      | pyDict d => left; rfl
      | pyOther bb r => left; rfl
      | pyList items =>
        cases items with
        | nil => right; rfl
        | cons first rest =>
          exfalso
          rw [safe_summarize_returned env call _ ho] at hsnd
          have hguard : (!pyTruthy (PyVal.pyList (first :: rest)) ||
              !isPyList (PyVal.pyList (first :: rest)) ||
              (pyListItems (PyVal.pyList (first :: rest))).length == 0) = false := by
            simp [pyTruthy, isPyList, pyListItems]
          rw [hguard] at hsnd
          simp only [Bool.false_eq_true, if_false] at hsnd
          by_cases hm2 : (!isPyDict ((pyListItems (PyVal.pyList (first :: rest))).headD
                .pyNone) ||
              ((pyDictEntries ((pyListItems (PyVal.pyList (first :: rest))).headD
                .pyNone)).lookup "summary_text").isNone) = true
          · rw [if_pos hm2] at hsnd
            simp only at hsnd
            exact malformed_msg_ne_empty_result _ (by simpa using hsnd)
          · rw [if_neg hm2] at hsnd
            simp at hsnd
    · intro hv
      have hemp : isEmptyResultOutcome (env call) = true := by
        rw [ho]
        cases v with
        | pyNone => rfl
        | pyStr s => simp [isEmptyResultOutcome, isPyList]
        | pyDict d => simp [isEmptyResultOutcome, isPyList]
        | pyOther bb r => simp [isEmptyResultOutcome, isPyList]
        | pyList items =>
          rcases hv with hv | hv
          · simp [isPyList] at hv
          · have : items = [] := by simpa [pyListItems] using hv
            subst this
            rfl
      rw [ss_empty_eq env call hemp]
  · intro env transcript a b hts ho
    have hss := ss_empty_string_success env ⟨"bart", transcript, a, b, false⟩ _ ho rfl
    have hp : (primaryAttempt env transcript "bart" a b).outcome = .ok (.pyStr "") := by
      rw [primary_bart, hss]
      simp [pyTruthy]
    rw [st_eq_ok env transcript "bart" a b _ hts hp]

/-- **C10 witness**: a concrete engine returning `[{"summary_text": ""}]`
on every call: the orchestrator returns the empty string for the
non-blank transcript `"some words here"`. -/
theorem C10_empty_summary_passthrough_witness :
    (summarize_transcript
      (fun _ => .returned (.pyList [.pyDict [("summary_text", .pyStr "")]]))
      "some words here" "bart" 300 100).retval = .pyStr "" :=
  C10_empty_summary_passthrough.2.2
    (fun _ => .returned (.pyList [.pyDict [("summary_text", .pyStr "")]]))
    "some words here" 300 100 (by decide) rfl

/-! ### Claim C7 -/

/-- **C7** (the code evaluated at the failing inputs): among
`get_transcript`'s failure strings only the no-transcript-found message
matches the `/summarize` guard's sentinel prefixes ("No transcript" /
"Transcript error"); the transcripts-disabled, video-unavailable and
catch-all messages all pass the guard — the guard's prefixes match the
message set of the commented-out old `get_transcript`, not the current
one (the current catch-all always overwrites its initial
`Transcript error: ...` string) — and the endpoint then feeds the
transcripts-disabled notice to `summarize_transcript` as input and
returns an engine summary of it instead of an error. -/
theorem C7_fetch_failure_guard_gap :
    get_transcript .transcriptsDisabled = "Transcripts are disabled for this video." ∧
    transcriptRejected (get_transcript .transcriptsDisabled) = false ∧
    transcriptRejected (get_transcript .noTranscriptFound) = true ∧
    transcriptRejected (get_transcript .videoUnavailable) = false ∧
    transcriptRejected (get_transcript (.otherFetchError "boom")) = false ∧
    summarize_video
      (fun _ => .returned (.pyList [.pyDict [("summary_text", .pyStr "A SUMMARY")]]))
      .transcriptsDisabled "bart" =
      .summaryResp (.pyStr "A SUMMARY") "bart" :=
  ⟨rfl, rfl, rfl, rfl, rfl, rfl⟩
